import Mathlib

/-!
Verification of the web-scraper core of `python-llm-toolkit`
(`src/python_llm_toolkit/scraper.py` and `tools.py`), as a shallow
embedding.  External collaborators (the HTTP transport `requests.get`,
the JSON codec `json.loads`, URL joining `urllib.parse.urljoin`) are
modelled as oracle parameters; the HTML parser (BeautifulSoup) is
modelled by working directly on parsed documents (`Node` trees), since
every scraper method first parses `response.text` and then only queries
the parse tree.
-/

namespace Scraper

/-- A parsed HTML document node, as produced by BeautifulSoup:
element tags with a name, attributes and children, text nodes
(`NavigableString`), and comment nodes (`Comment`).  The document root
produced by BeautifulSoup is an element named `"[document]"`. -/
inductive Node where
  | elem (name : String) (attrs : List (String × String)) (children : List Node)
  | text (s : String)
  | comment (s : String)
deriving Repr

/-- A JSON value, for modelling `json.loads` payloads. -/
inductive Json where
  | null
  | bool (b : Bool)
  | num (n : Int)
  | str (s : String)
  | arr (xs : List Json)
  | obj (fields : List (String × Json))
deriving Repr

/-- A string fragment of a document, as yielded by
`soup.find_all(string=True)`: its content, the tag name of its direct
parent, and whether it is a `Comment`. -/
structure Frag where
  content : String
  parentName : String
  isComment : Bool
deriving Repr, DecidableEq

/-! Models of the Python string primitives the scraper relies on
(`str.lower`, `str.strip`, slicing, `str.endswith`), written over
character lists so that every definition evaluates inside the kernel.
`str.lower` is modelled on the ASCII range, which covers every string
the scraper compares. -/

/-- `str.lower` on one character (ASCII case folding). -/
def pyLowerChar (c : Char) : Char :=
  if 'A' ≤ c && c ≤ 'Z' then Char.ofNat (c.toNat + 32) else c

/-- `str.lower`. -/
def pyLower (s : String) : String :=
  ⟨s.data.map pyLowerChar⟩

/-- The whitespace stripped by `str.strip()`. -/
def pyIsSpace (c : Char) : Bool :=
  c = ' ' || c = '\t' || c = '\n' || c = '\r' || c = '\x0b' || c = '\x0c'

/-- `str.strip()`. -/
def pyStrip (s : String) : String :=
  ⟨((s.data.dropWhile pyIsSpace).reverse.dropWhile pyIsSpace).reverse⟩

/-- The slice `s[:n]`. -/
def pyTake (s : String) (n : Nat) : String :=
  ⟨s.data.take n⟩

/-- `s.endswith(suffix)`. -/
def pyEndsWith (s suffix : String) : Bool :=
  suffix.data.isSuffixOf s.data

mutual

/-- All string fragments in a node, in document order, tagged with the
name of their direct parent (`soup.find_all(string=True)`). -/
def fragsOf (parent : String) : Node → List Frag
  | .text s => [⟨s, parent, false⟩]
  | .comment s => [⟨s, parent, true⟩]
  | .elem n _ cs => fragsOfList n cs

def fragsOfList (parent : String) : List Node → List Frag
  | [] => []
  | c :: cs => fragsOf parent c ++ fragsOfList parent cs

end

/-- `soup.find_all(string=True)` on a whole document: the root is the
BeautifulSoup `[document]` object, so its direct string children carry
parent name `"[document]"`. -/
def allFrags : Node → List Frag
  | .elem n _ cs => fragsOfList n cs
  | .text s => [⟨s, "[document]", false⟩]
  | .comment s => [⟨s, "[document]", true⟩]

/-- `[c]` when `c` is an element, `[]` otherwise. -/
def selfElem : Node → List Node
  | .elem n a cc => [.elem n a cc]
  | _ => []

mutual

/-- All element descendants of a node, in document order (pre-order),
excluding the node itself: the search space of `find_all`. -/
def descElems : Node → List Node
  | .elem _ _ cs => descElemsList cs
  | _ => []

def descElemsList : List Node → List Node
  | [] => []
  | c :: cs => selfElem c ++ descElems c ++ descElemsList cs

end

/-- Name of an element node (`""` for text/comment nodes, which never
match a tag-name query). -/
def nodeName : Node → String
  | .elem n _ _ => n
  | _ => ""

/-- Attribute lookup, `tag[attr]` / `tag.get(attr)`. -/
def attrOf (n : Node) (key : String) : Option String :=
  match n with
  | .elem _ attrs _ => (attrs.find? (fun p => p.1 = key)).map (·.2)
  | _ => none

/-- `soup.find_all(name)`: element descendants with the given tag name,
in document order. -/
def findAllElems (name : String) (doc : Node) : List Node :=
  (descElems doc).filter (fun n => nodeName n = name)

/-- `soup.find(name)` / `soup.title`: first element descendant with the
given tag name. -/
def findFirstElem (name : String) (doc : Node) : Option Node :=
  (findAllElems name doc).head?

/-- `scraper.py:38-43`, `is_visible(element)`: a string fragment is kept
when its direct parent's tag name is not in
`['style','script','head','meat','[document]']` (sic: the source spells
`'meat'`, and tests only the DIRECT parent) and it is not a `Comment`. -/
def is_visible (f : Frag) : Bool :=
  !((["style", "script", "head", "meat", "[document]"]).contains f.parentName)
    && !f.isComment

/-- Raw contents of all non-comment string descendants, in document
order: the strings joined by `tag.get_text(separator)` (BeautifulSoup
≥ 4.9 excludes comments from `get_text`). -/
def textStrings (doc : Node) : List String :=
  ((allFrags doc).filter (fun f => !f.isComment)).map (·.content)

/-- `soup.get_text(separator=' ')`. -/
def getTextSpace (doc : Node) : String :=
  String.intercalate " " (textStrings doc)

/-- `tag.get_text(strip=True)`: every string descendant is stripped,
empty results are dropped, and the rest are concatenated (default
separator `""`). Strings of a text node itself are its content. -/
def getTextStrip (n : Node) : String :=
  String.join ((((fragsOf "" n).filter (fun f => !f.isComment)).map
    (fun f => pyStrip f.content)).filter (fun s => s ≠ ""))

/-- `scraper.py:342-344` and `scraper.py:425-427`: the joined visible
text — `texts = soup.find_all(string=True)`, filtered by `is_visible`,
each fragment stripped, empty fragments dropped, joined with `" "`. -/
def joinedVisibleText (doc : Node) : String :=
  String.intercalate " "
    ((((allFrags doc).filter is_visible).map
      (fun f => pyStrip f.content)).filter (fun s => s ≠ ""))

/-- `tag.string` (BeautifulSoup): if the tag has exactly one child and
it is a `NavigableString` (comments included — `Comment` subclasses
`NavigableString`), that string; if the single child is itself a tag,
its `.string` recursively; otherwise `None`. -/
def nodeString : Node → Option String
  | .elem _ _ [.text s] => some s
  | .elem _ _ [.comment s] => some s
  | .elem _ _ [.elem n a cs] => nodeString (.elem n a cs)
  | .elem _ _ _ => none
  | .text s => some s
  | .comment s => some s

/-- One hyperlink record `{"text": ..., "href": ...}`. -/
structure Link where
  text : String
  href : String
deriving Repr, DecidableEq

/-- `scraper.py:19-36`, dataclass `PageSnapshot`.  `headings` models the
Python `Dict[str, List[str]]` as an insertion-ordered association list
(Python dicts preserve insertion order). -/
structure PageSnapshot where
  url : String
  title : String
  headings : List (String × List String)
  main_text_snippet : String
  json_ld : List Json
  links : List Link
deriving Repr

/-- Links extracted in `scraper.py:442-445`: every `<a>` descendant
carrying an `href` attribute yields `{"text": a.get_text(strip=True),
"href": urljoin(url, a["href"])}`, in document order.  `uj` is the
`urllib.parse.urljoin` collaborator. -/
def linksOfDoc (uj : String → String → String) (url : String) (doc : Node) :
    List Link :=
  ((findAllElems "a" doc).filter (fun a => (attrOf a "href").isSome)).map
    (fun a => ⟨getTextStrip a, uj url ((attrOf a "href").getD "")⟩)

/-- JSON-LD accumulation in `scraper.py:430-439`: for each
`<script type="application/ld+json">`, parse its `.string` with
`json.loads` (`jp` oracle; `none` covers both a `None` string and a
parse failure, each of which raises inside the inner `try` and is
skipped); a parsed list is spliced element-wise, anything else is
appended. -/
def jsonLdOf (jp : String → Option Json) (doc : Node) : List Json :=
  ((findAllElems "script" doc).filter
      (fun s => attrOf s "type" = some "application/ld+json")).foldl
    (fun acc s =>
      match nodeString s with
      | none => acc
      | some body =>
          match jp body with
          | some (.arr xs) => acc ++ xs
          | some v => acc ++ [v]
          | none => acc)
    []

/-- The heading keys `"h1"`..`"h6"` in order. -/
def headingKeys : List String :=
  (List.range' 1 6).map (fun i => "h" ++ toString i)

/-- The empty placeholder snapshot appended at `scraper.py:458-465`
when any exception occurs for a URL. -/
def emptySnapshot (url : String) : PageSnapshot :=
  { url := url
    title := ""
    headings := headingKeys.map (fun k => (k, []))
    main_text_snippet := ""
    json_ld := []
    links := [] }

/-- `scraper.py:428`: the main-text snippet of the joined visible text,
`joined[:1000] + "..."` when `len(joined) > 1000`, else `joined`
unchanged. -/
def snippetOf (joined : String) : String :=
  if 1000 < joined.length then pyTake joined 1000 ++ "..." else joined

/-- The per-URL body of `get_structured_page_snapshot`
(`scraper.py:411-455`) after a successful fetch of `doc`.  Returns
`none` exactly when the body raises: `soup.title.string.strip()` raises
`AttributeError` when a `<title>` element exists but its `.string` is
`None` (every other step of the body is total or has its own inner
`try`). -/
def titleOf (doc : Node) : Option String :=
  match findFirstElem "title" doc with
  | none => some ""
  | some t => (nodeString t).map pyStrip

def mkSnapshot (jp : String → Option Json) (uj : String → String → String)
    (url : String) (doc : Node) : Option PageSnapshot :=
  match titleOf doc with
  | none => none
  | some title =>
      some { url := url
             title := title
             headings := headingKeys.map
               (fun k => (k, (findAllElems k doc).map getTextStrip))
             main_text_snippet := snippetOf (joinedVisibleText doc)
             json_ld := jsonLdOf jp doc
             links := linksOfDoc uj url doc }

/-- `scraper.py:398-466`, `WebScraper.get_structured_page_snapshot`:
one snapshot is appended per URL of `self.urls` — the structured
snapshot on success, the empty placeholder when the fetch (or the body)
raises.  `fetch` is the `requests.get` + parse collaborator (`none`
models a raised exception).  `snapshotFor` is the per-URL loop body. -/
def snapshotFor (fetch : String → Option Node) (jp : String → Option Json)
    (uj : String → String → String) (url : String) : PageSnapshot :=
  match fetch url with
  | some doc =>
      match mkSnapshot jp uj url doc with
      | some snap => snap
      | none => emptySnapshot url
  | none => emptySnapshot url

def get_structured_page_snapshot (fetch : String → Option Node)
    (jp : String → Option Json) (uj : String → String → String)
    (urls : List String) : List PageSnapshot :=
  urls.map (snapshotFor fetch jp uj)

/-- Python's substring test `needle in hay`, over characters. -/
def strContains (hay needle : String) : Bool :=
  (List.range (hay.length + 1)).any
    (fun i => needle.toList.isPrefixOf (hay.toList.drop i))

/-- Python dict assignment `d[k] = v` on an insertion-ordered
association list: replaces in place when the key is present, appends
otherwise. -/
def dictInsert {α : Type} (d : List (String × α)) (k : String) (v : α) :
    List (String × α) :=
  if d.any (fun p => p.1 = k) then
    d.map (fun p => if p.1 = k then (k, v) else p)
  else d ++ [(k, v)]

/-- `scraper.py:227-250`, `WebScraper.search_text_for_keywords`: for each
URL, fetch and parse, lower-case `soup.get_text(separator=' ')`, and
keep (in configured order) each search term whose lower-cased form
occurs as a substring; on any exception the URL maps to `[]`. -/
def searchStep (fetch : String → Option Node) (search_terms : List String)
    (acc : List (String × List String)) (url : String) :
    List (String × List String) :=
  match fetch url with
  | some doc =>
      let text := pyLower (getTextSpace doc)
      dictInsert acc url
        (search_terms.filter (fun kw => strContains text (pyLower kw)))
  | none => dictInsert acc url []

def search_text_for_keywords (fetch : String → Option Node)
    (search_terms : List String) (urls : List String) :
    List (String × List String) :=
  urls.foldl (searchStep fetch search_terms) []

/-- `scraper.py:81-102`, `WebScraper.fetch_links_from_url`: one
`requests.get` per URL of `self.urls`; on success every `<a href=...>`
contributes `urljoin(url, href)`; an exception contributes nothing.
The second component instruments the calls made to the transport (the
Page Fetcher's input), in order. -/
def fetchLinksStep (fetch : String → Option Node)
    (uj : String → String → String) (acc : List String × List String)
    (url : String) : List String × List String :=
  match fetch url with
  | some doc => (acc.1 ++ (linksOfDoc uj url doc).map (·.href),
                 acc.2 ++ [url])
  | none => (acc.1, acc.2 ++ [url])

def fetch_links_from_url (fetch : String → Option Node)
    (uj : String → String → String) (urls : List String) :
    List String × List String :=
  urls.foldl (fetchLinksStep fetch uj) ([], [])

/-- `scraper.py:154-155`, `WebScraper.filter_links_by_file_type`: keeps
a link when the lower-cased FULL link ends with one of the configured
suffixes, taken verbatim (`link.lower().endswith(ex)` — `ex` is not
lower-cased, and no URL path is extracted). -/
def filter_links_by_file_type (file_types : List String)
    (links : List String) : List String :=
  links.filter (fun link =>
    file_types.any (fun ex => pyEndsWith (pyLower link) ex))

/-- Drops everything up to and including the first `://`, or `none`
when the URL has no scheme separator. -/
def dropSchemeAux : List Char → Option (List Char)
  | ':' :: '/' :: '/' :: rest => some rest
  | _ :: rest => dropSchemeAux rest
  | [] => none

/-- Cuts a path at the first `?` or `#` (query and fragment are not
part of `.path`). -/
def cutQueryFrag (cs : List Char) : List Char :=
  cs.takeWhile (fun c => c ≠ '?' && c ≠ '#')

/-- Models `urllib.parse.urlparse` for the components the scraper uses:
`(netloc, path)` of an absolute `scheme://netloc/path[?query][#frag]`
URL. -/
def urlparseModel (url : String) : String × String :=
  match dropSchemeAux url.data with
  | none => ("", ⟨cutQueryFrag url.data⟩)
  | some rest =>
      (⟨rest.takeWhile (fun c => c ≠ '/')⟩,
       ⟨cutQueryFrag (rest.dropWhile (fun c => c ≠ '/'))⟩)

/-- Models `os.path.basename`: the part of a path after its last `/`. -/
def basenameOf (path : String) : String :=
  ⟨(path.data.reverse.takeWhile (fun c => c ≠ '/')).reverse⟩

/-- Models `os.path.splitext(filename)[1].lstrip(".")`: the extension
after the last dot of the filename, where the leading dots of the
filename never start an extension; `""` when there is no extension. -/
def extOf (filename : String) : String :=
  let cs := filename.toList
  let body := cs.drop (cs.takeWhile (fun c => c = '.')).length
  let afterDot := (body.reverse.takeWhile (fun c => c ≠ '.')).reverse
  if body.any (fun c => c = '.') then String.mk afterDot else ""

/-- A transport response for a file download: HTTP status and body. -/
structure DResp where
  status : Nat
  body : String
deriving Repr, DecidableEq

/-- `requests.Response.raise_for_status` raises exactly for client and
server error statuses, `400 ≤ status < 600`. -/
def raisesForStatus (status : Nat) : Bool :=
  400 ≤ status && status < 600

/-- The save path built at `scraper.py:182-196`:
`output_dir/<netloc>/<ext or "unknown">/<basename>`. -/
def savePathOf (parse : String → String × String) (output_dir link : String) :
    String :=
  let filename := basenameOf (parse link).2
  let domain := (parse link).1
  let ext := if extOf filename = "" then "unknown" else extOf filename
  output_dir ++ "/" ++ domain ++ "/" ++ ext ++ "/" ++ filename

/-- The outcome of one iteration of the loop in `download_files`
(`scraper.py:180-204`): `none` when the link is skipped (empty
basename, so `continue`, no GET) or its GET raises / has a 4xx-5xx
status (caught by the per-link `except`); `some path` when the file is
written and its path appended. -/
def downloadOne (parse : String → String × String)
    (dl : String → Option DResp) (output_dir link : String) : Option String :=
  if basenameOf (parse link).2 = "" then none
  else
    match dl link with
    | none => none
    | some r =>
        if raisesForStatus r.status then none
        else some (savePathOf parse output_dir link)

/-- `scraper.py:177-208`, `WebScraper.download_files`: per-link loop with
a per-link `try/except`; failures are logged and skipped, successes
append their save path.  The second component instruments the links for
which a GET was actually issued (every link whose basename is
non-empty, whatever the outcome). -/
def downloadStep (parse : String → String × String)
    (dl : String → Option DResp) (output_dir : String)
    (acc : List String × List String) (link : String) :
    List String × List String :=
  if basenameOf (parse link).2 = "" then acc
  else ((acc.1 ++ (downloadOne parse dl output_dir link).toList),
        acc.2 ++ [link])

def download_files (parse : String → String × String)
    (dl : String → Option DResp) (output_dir : String) (links : List String) :
    List String × List String :=
  links.foldl (downloadStep parse dl output_dir) ([], [])

/-- `tools.py:30-51`, `download_files_by_type`: fetch all links from the
configured URLs, filter them by file type, download the filtered links.
The second component is the combined transport log: the page fetches
followed by the file-download fetches. -/
def download_files_by_type (fetch : String → Option Node)
    (dl : String → Option DResp) (uj : String → String → String)
    (parse : String → String × String) (output_dir : String)
    (urls : List String) (file_extensions : List String) :
    List String × List String :=
  let fl := fetch_links_from_url fetch uj urls
  let filtered := filter_links_by_file_type file_extensions fl.1
  let dd := download_files parse dl output_dir filtered
  (dd.1, fl.2 ++ dd.2)

/-- `scraper.py:356-395`, `WebScraper.extract_json_ld`: per URL, fetch
and parse, collect into a local `data` list the payloads of every
`<script type="application/json">` block — and then never store `data`:
`json_data[url]` is assigned only in the `except` branch
(`scraper.py:392`), so the returned dict maps exactly the failed URLs
to `[]`. -/
def jsonLdStep (fetch : String → Option Node)
    (acc : List (String × List Json)) (url : String) :
    List (String × List Json) :=
  match fetch url with
  | some _ => acc
  | none => dictInsert acc url []

def extract_json_ld (fetch : String → Option Node)
    (_jp : String → Option Json) (urls : List String) :
    List (String × List Json) :=
  urls.foldl (jsonLdStep fetch) []

/-- `PageSnapshot.to_dict` (`scraper.py:28-36`) composed with JSON
serialization of one snapshot: the dict with keys exactly
`url, title, headings, main_text_snippet, json_ld, links` in that
insertion order. -/
def snapshotToDict (s : PageSnapshot) : Json :=
  .obj
    [("url", .str s.url),
     ("title", .str s.title),
     ("headings", .obj (s.headings.map (fun p => (p.1, .arr (p.2.map .str))))),
     ("main_text_snippet", .str s.main_text_snippet),
     ("json_ld", .arr s.json_ld),
     ("links",
      .arr (s.links.map (fun l =>
        .obj [("text", .str l.text), ("href", .str l.href)])))]

/-- `scraper.py:469-481`, `WebScraper.export_snapshots_to_json`: the JSON
document written to the file is the array `[snap.to_dict() for snap in
snapshots]` (the textual `json.dump`/`json.load` codec is the external
collaborator and is modelled as the identity on JSON values, so the file
is modelled by the JSON value it holds). -/
def export_snapshots_to_json (snapshots : List PageSnapshot) : Json :=
  .arr (snapshots.map snapshotToDict)

/-- List traversal under `Option`, modelling a Python list
comprehension in which a failing element raises out of the whole
construction. -/
def optList {α β : Type} (g : α → Option β) : List α → Option (List β)
  | [] => some []
  | a :: l =>
      match g a with
      | none => none
      | some b => (optList g l).map (fun bs => b :: bs)

/-- Decoding one JSON object back to a heading table. -/
def jsonToHeadings : Json → Option (List (String × List String))
  | .obj fields =>
      optList (fun (p : String × Json) =>
        match p.2 with
        | .arr vs =>
            (optList (fun (v : Json) =>
              match v with
              | .str s => some s
              | _ => none) vs).map (fun ss => (p.1, ss))
        | _ => none) fields
  | _ => none

/-- Decoding one JSON object back to a link list. -/
def jsonToLinks : Json → Option (List Link)
  | .arr vs =>
      optList (fun v =>
        match v with
        | .obj [("text", .str t), ("href", .str h)] => some ⟨t, h⟩
        | _ => none) vs
  | _ => none

/-- `PageSnapshot(**item)` (`scraper.py:486`): constructing a snapshot
from a parsed JSON object.  Python accepts exactly the six field names
as keyword arguments (any other key set raises `TypeError`); `none`
also covers objects whose field values fall outside the typed fragment
of `PageSnapshot` that this model covers. -/
def snapshotOfDict : Json → Option PageSnapshot
  | .obj fields =>
      if (fields.map (·.1)).Perm
           ["url", "title", "headings", "main_text_snippet", "json_ld",
            "links"] then
        match ((fields.find? (·.1 = "url")).map (·.2) : Option Json),
              ((fields.find? (·.1 = "title")).map (·.2) : Option Json),
              ((fields.find? (·.1 = "headings")).map (·.2) : Option Json),
              ((fields.find? (·.1 = "main_text_snippet")).map (·.2) :
                Option Json),
              ((fields.find? (·.1 = "json_ld")).map (·.2) : Option Json),
              ((fields.find? (·.1 = "links")).map (·.2) : Option Json) with
        | some (.str url), some (.str title), some hv, some (.str snip),
          some (.arr jl), some lv =>
            match jsonToHeadings hv, jsonToLinks lv with
            | some hs, some ls =>
                some { url := url, title := title, headings := hs,
                       main_text_snippet := snip, json_ld := jl, links := ls }
            | _, _ => none
        | _, _, _, _, _, _ => none
      else none
  | _ => none

/-- `scraper.py:483-486`, `WebScraper.load_snapshots_from_json`: parse
the file's JSON document (an array) and build `PageSnapshot(**item)`
for each element. -/
def load_snapshots_from_json : Json → Option (List PageSnapshot)
  | .arr items => optList snapshotOfDict items
  | _ => none

/-- The `csv.QUOTE_MINIMAL` rule of the default `excel` dialect used by
`csv.DictWriter`: a field is quoted iff it contains the delimiter `,`,
the quote char `"`, or a CR/LF. -/
def csvNeedsQuoting (s : String) : Bool :=
  s.data.any (fun c => c = ',' || c = '"' || c = '\r' || c = '\n')

/-- Doubles every `"` (the `excel` dialect's quote escaping). -/
def quoteDouble : List Char → List Char
  | [] => []
  | '"' :: cs => '"' :: '"' :: quoteDouble cs
  | c :: cs => c :: quoteDouble cs

/-- CSV field encoding: wrap in quotes with embedded quotes doubled,
only when needed. -/
def csvField (s : String) : String :=
  if csvNeedsQuoting s then "\"" ++ (⟨quoteDouble s.data⟩ : String) ++ "\""
  else s

/-- One CSV record with the default `excel` dialect (`\r\n` line
terminator). -/
def csvLine (fields : List String) : String :=
  String.intercalate "," (fields.map csvField) ++ "\r\n"

/-- The fieldnames passed to `csv.DictWriter` at `scraper.py:499-502`. -/
def csvFieldnames : List String :=
  ["url", "title", "main_text_snippet", "num_links", "num_headings",
   "num_json_ld"]

/-- The raw values handed to `writer.writerow` for one snapshot
(`scraper.py:505-512`), in fieldname order: note the snippet is ONLY
sliced to 300 characters — its commas and newlines are kept and left to
CSV quoting. -/
def snapshotCsvFields (snap : PageSnapshot) : List String :=
  [snap.url,
   snap.title,
   pyTake snap.main_text_snippet 300,
   toString snap.links.length,
   toString (snap.headings.map (fun p => p.2.length)).sum,
   toString snap.json_ld.length]

/-- `scraper.py:489-512`, `WebScraper.export_snapshots_to_csv`: the text
written to the file — the header row followed by one record per
snapshot. -/
def export_snapshots_to_csv (snapshots : List PageSnapshot) : String :=
  csvLine csvFieldnames ++
    String.join (snapshots.map (fun s => csvLine (snapshotCsvFields s)))

/-- Modelled from the spec (§4.3, "File-matching links: subset of Links
whose path ends (case-insensitive) with a configured file-type
suffix"): the link's URL PATH, compared case-insensitively against each
configured suffix.  Stated only to be compared with the source's
`filter_links_by_file_type`. -/
def specFileTypeMatch (pathOf : String → String) (file_types : List String)
    (link : String) : Bool :=
  file_types.any (fun ex => pyEndsWith (pyLower (pathOf link)) (pyLower ex))

/-- Modelled from the spec (§6, snapshot CSV format): the snippet field
"truncated to 300 characters with embedded newlines and commas replaced
by a single space".  Stated only to be compared with the source's
`snapshotCsvFields`. -/
def specCsvSnippetField (s : String) : String :=
  ⟨(s.data.take 300).map (fun c => if c = ',' || c = '\n' then ' ' else c)⟩

/-! Concrete fixtures used by witnesses and counterexamples. -/

/-- A JSON-parsing oracle that always fails (no snapshot claim below
depends on parsed JSON-LD payloads). -/
def jp0 : String → Option Json := fun _ => none

/-- A `urljoin` oracle for fixtures whose hrefs are already absolute:
`urljoin(base, absolute)` returns the absolute URL unchanged. -/
def uj0 : String → String → String := fun _ href => href

/-- A transport oracle on which every request raises. -/
def fetchNone : String → Option Node := fun _ => none

/-- Fixture: `<html><head><title>Hello</title></head>
<body>World<!--secret--><script>var x=1;</script></body></html>` —
its `<title>` text sits inside the `head` subtree but its DIRECT parent
is `title`. -/
def docHead : Node :=
  .elem "[document]" []
    [.elem "html" []
      [.elem "head" [] [.elem "title" [] [.text "Hello"]],
       .elem "body" []
         [.text "World", .comment "secret",
          .elem "script" [] [.text "var x=1;"]]]]

/-- Fixture: a title-less page whose visible text is `hello` (so its
snapshot builds without raising and matches no keyword `zzz`). -/
def docPlain : Node :=
  .elem "[document]" []
    [.elem "html" [] [.elem "body" [] [.text "hello"]]]

/-- Fixture transport: serves `docPlain` at `"u"`. -/
def fetchPlain : String → Option Node :=
  fun url => if url = "u" then some docPlain else none

/-- The snapshot the scraper builds for `docPlain` at URL `"u"`. -/
def snapPlain : PageSnapshot :=
  { url := "u"
    title := ""
    headings := [("h1", []), ("h2", []), ("h3", []), ("h4", []),
                 ("h5", []), ("h6", [])]
    main_text_snippet := "hello"
    json_ld := []
    links := [] }

/-- Fixture: the page at `http://h/a.pdf` links to itself. -/
def docSelfLink : Node :=
  .elem "[document]" []
    [.elem "a" [("href", "http://h/a.pdf")] [.text "x"]]

/-- Fixture transport for the double-fetch run: serves `docSelfLink` at
`http://h/a.pdf`. -/
def fetchSelf : String → Option Node :=
  fun url => if url = "http://h/a.pdf" then some docSelfLink else none

/-- Fixture download oracle: every GET answers 200. -/
def dl200 : String → Option DResp := fun _ => some ⟨200, "body"⟩

/-- Fixture download oracle: every GET answers 304 (a non-2xx status
for which `raise_for_status` does NOT raise). -/
def dl304 : String → Option DResp := fun _ => some ⟨304, "body"⟩

/-- Fixture download oracle for the three-link harvest scenario: 404 at
`http://h/b.pdf`, 200 elsewhere. -/
def dl404b : String → Option DResp :=
  fun link => if link = "http://h/b.pdf" then some ⟨404, "gone"⟩
              else some ⟨200, "body"⟩

/-- Fixture snapshot with a comma and a newline inside the snippet. -/
def snapComma : PageSnapshot :=
  { url := "http://h/"
    title := "T"
    headings := [("h1", ["A"]), ("h2", []), ("h3", []), ("h4", []),
                 ("h5", []), ("h6", [])]
    main_text_snippet := "a,b\nc"
    json_ld := [.obj [("k", .num 1)]]
    links := [⟨"t", "http://h/x"⟩] }

/-! Helper lemmas shared by the claim theorems. -/

theorem dictInsert_forall {α : Type} (P : String × α → Prop)
    (d : List (String × α)) (k : String) (v : α)
    (hd : ∀ p ∈ d, P p) (hkv : P (k, v)) :
    ∀ p ∈ dictInsert d k v, P p := by
  intro p hp
  unfold dictInsert at hp
  split at hp
  · rcases List.mem_map.1 hp with ⟨q, hq, hfq⟩
    by_cases hqk : q.1 = k
    · rw [← hfq, if_pos hqk]; exact hkv
    · rw [← hfq, if_neg hqk]; exact hd q hq
  · rcases List.mem_append.1 hp with h | h
    · exact hd p h
    · rw [List.mem_singleton.1 h]; exact hkv

theorem foldl_preserve {α β : Type} (f : β → α → β) (P : β → Prop)
    (hstep : ∀ b a, P b → P (f b a)) :
    ∀ (l : List α) (b : β), P b → P (l.foldl f b) := by
  intro l
  induction l with
  | nil => intro b hb; exact hb
  | cons a l ih => intro b hb; exact ih (f b a) (hstep b a hb)

theorem optList_map_id {α β : Type} (f : α → β) (g : β → Option α)
    (h : ∀ a, g (f a) = some a) :
    ∀ l : List α, optList g (l.map f) = some l := by
  intro l
  induction l with
  | nil => rfl
  | cons a l ih => simp [optList, h, ih]

theorem mkSnapshot_fields (jp : String → Option Json)
    (uj : String → String → String) (url : String) (doc : Node)
    (snap : PageSnapshot) (h : mkSnapshot jp uj url doc = some snap) :
    snap.url = url ∧
    snap.main_text_snippet = snippetOf (joinedVisibleText doc) ∧
    snap.links = linksOfDoc uj url doc := by
  unfold mkSnapshot at h
  split at h
  · exact absurd h (by simp)
  · rw [Option.some_inj] at h
    subst h
    exact ⟨rfl, rfl, rfl⟩

theorem snapshotFor_of_fail (fetch : String → Option Node)
    (jp : String → Option Json) (uj : String → String → String)
    (url : String) (h : fetch url = none) :
    snapshotFor fetch jp uj url = emptySnapshot url := by
  unfold snapshotFor
  rw [h]

theorem snapshotFor_url (fetch : String → Option Node)
    (jp : String → Option Json) (uj : String → String → String)
    (url : String) : (snapshotFor fetch jp uj url).url = url := by
  unfold snapshotFor
  cases hf : fetch url with
  | none => rfl
  | some doc =>
      simp only
      cases hs : mkSnapshot jp uj url doc with
      | none => rfl
      | some snap => exact (mkSnapshot_fields jp uj url doc snap hs).1

theorem fetchLinks_foldl_snd (fetch : String → Option Node)
    (uj : String → String → String) :
    ∀ (urls : List String) (acc : List String × List String),
      (urls.foldl (fetchLinksStep fetch uj) acc).2 = acc.2 ++ urls := by
  intro urls
  induction urls with
  | nil => intro acc; simp
  | cons u us ih =>
      intro acc
      rw [List.foldl_cons, ih]
      cases h : fetch u <;> simp [fetchLinksStep, h]

theorem download_foldl_snd (parse : String → String × String)
    (dl : String → Option DResp) (out : String) :
    ∀ (links : List String) (acc : List String × List String),
      (links.foldl (downloadStep parse dl out) acc).2
        = acc.2 ++ links.filter (fun l => !(basenameOf (parse l).2 = "")) := by
  intro links
  induction links with
  | nil => intro acc; simp
  | cons l ls ih =>
      intro acc
      rw [List.foldl_cons, ih]
      by_cases hb : basenameOf (parse l).2 = "" <;>
        simp [downloadStep, hb]

theorem download_foldl_fst (parse : String → String × String)
    (dl : String → Option DResp) (out : String) :
    ∀ (links : List String) (acc : List String × List String),
      (links.foldl (downloadStep parse dl out) acc).1
        = acc.1 ++ links.filterMap (downloadOne parse dl out) := by
  intro links
  induction links with
  | nil => intro acc; simp
  | cons l ls ih =>
      intro acc
      rw [List.foldl_cons, ih]
      by_cases hb : basenameOf (parse l).2 = ""
      · simp [downloadStep, hb, downloadOne, List.filterMap_cons]
      · simp only [downloadStep, hb, if_neg, List.filterMap_cons]
        cases hd : downloadOne parse dl out l <;> simp [hd]

theorem download_files_fst (parse : String → String × String)
    (dl : String → Option DResp) (out : String) (links : List String) :
    (download_files parse dl out links).1
      = links.filterMap (downloadOne parse dl out) := by
  unfold download_files
  simpa using download_foldl_fst parse dl out links ([], [])

theorem downloadOne_of_fail (parse : String → String × String)
    (dl : String → Option DResp) (out l : String)
    (hfail : dl l = none ∨
      ∃ r, dl l = some r ∧ raisesForStatus r.status = true) :
    downloadOne parse dl out l = none := by
  unfold downloadOne
  by_cases hb : basenameOf (parse l).2 = ""
  · rw [if_pos hb]
  · rw [if_neg hb]
    rcases hfail with hnone | ⟨r, hr, hst⟩
    · rw [hnone]
    · rw [hr]
      simp [hst]

/-! Claim theorems. -/

/-- C10: for every run of `extract_json_ld`, the returned mapping
contains an entry only for URLs whose fetch raised an exception, each
mapped to the empty list; structured-data objects parsed from
successfully fetched pages are never stored in the returned mapping. -/
theorem extract_json_ld_only_failures (fetch : String → Option Node)
    (jp : String → Option Json) (urls : List String) :
    ∀ p ∈ extract_json_ld fetch jp urls, fetch p.1 = none ∧ p.2 = [] := by
  intro p hp
  refine foldl_preserve (jsonLdStep fetch)
    (fun d => ∀ q ∈ d, fetch q.1 = none ∧ q.2 = []) ?_ urls [] (by simp) p hp
  intro d u hd
  unfold jsonLdStep
  cases hu : fetch u with
  | some doc => exact hd
  | none => exact dictInsert_forall _ d u [] hd ⟨hu, rfl⟩

/-- C10 witness: on a transport where every request raises, the single
entry of the returned mapping is for the failed URL and is empty. -/
theorem extract_json_ld_only_failures_witness :
    fetchNone "u" = none ∧ ("u", ([] : List Json)).2 = [] :=
  extract_json_ld_only_failures fetchNone jp0 ["u"] ("u", [])
    (by simp [extract_json_ld, jsonLdStep, dictInsert, fetchNone])

/-- C1 counterexample: with the non-empty search-term set `["zzz"]` and
a page whose text matches no keyword, `search_text_for_keywords`
records no match for the URL, yet `get_structured_page_snapshot` still
produces a snapshot for it — refuting "a PageSnapshot is produced for a
fetched URL if and only if the page matched at least one configured
keyword". -/
theorem snapshot_not_keyword_gated :
    (["zzz"] : List String) ≠ [] ∧
    search_text_for_keywords fetchPlain ["zzz"] ["u"] = [("u", [])] ∧
    (get_structured_page_snapshot fetchPlain jp0 uj0 ["u"]).length = 1 ∧
    (get_structured_page_snapshot fetchPlain jp0 uj0 ["u"]).map
      (fun s => s.url) = ["u"] := by
  exact ⟨by simp, by decide, by decide, by decide⟩

/-- C1 (amended): `get_structured_page_snapshot` produces exactly one
`PageSnapshot` per configured URL — bearing that URL — with no keyword
gating at all; and when the search-term set is empty,
`search_text_for_keywords` reports an empty match list for every URL
(no page is treated as matching). -/
theorem snapshot_per_url_unconditional (fetch : String → Option Node)
    (jp : String → Option Json) (uj : String → String → String)
    (urls : List String) :
    (get_structured_page_snapshot fetch jp uj urls).map (fun s => s.url)
      = urls ∧
    ∀ p ∈ search_text_for_keywords fetch [] urls, p.2 = [] := by
  constructor
  · induction urls with
    | nil => rfl
    | cons u us ih =>
        simp only [get_structured_page_snapshot, List.map_cons] at ih ⊢
        rw [snapshotFor_url, ih]
  · intro p hp
    refine foldl_preserve (searchStep fetch [])
      (fun d => ∀ q ∈ d, q.2 = []) ?_ urls [] (by simp) p hp
    intro d u hd
    unfold searchStep
    cases fetch u with
    | some doc => exact dictInsert_forall _ d u _ hd rfl
    | none => exact dictInsert_forall _ d u _ hd rfl

/-- C1 amended-claim witness at a concrete run. -/
theorem snapshot_per_url_unconditional_witness :
    (get_structured_page_snapshot fetchPlain jp0 uj0 ["u"]).map
      (fun s => s.url) = ["u"] ∧
    ("u", ([] : List String)).2 = [] :=
  ⟨(snapshot_per_url_unconditional fetchPlain jp0 uj0 ["u"]).1,
   (snapshot_per_url_unconditional fetchPlain jp0 uj0 ["u"]).2 ("u", [])
     (by simp [search_text_for_keywords, searchStep, dictInsert, fetchPlain])⟩

/-- C3 counterexample: on a transport where the fetch of `"u"` raises,
the crawl still records a snapshot for `"u"` — the empty placeholder —
refuting "the crawl records no snapshot" for a failed URL. -/
theorem failed_fetch_records_placeholder :
    get_structured_page_snapshot fetchNone jp0 uj0 ["u"]
      = [emptySnapshot "u"] ∧
    (get_structured_page_snapshot fetchNone jp0 uj0 ["u"]).length ≠ 0 := by
  exact ⟨rfl, by decide⟩

/-- C3 (amended): a URL whose fetch raises contributes exactly the
empty placeholder snapshot (whose link list is empty, so no links are
discovered from it), and every other URL of the run is processed
exactly as it would be alone — the failure is isolated per URL and
never aborts the crawl. -/
theorem fetch_failure_isolated (fetch : String → Option Node)
    (jp : String → Option Json) (uj : String → String → String)
    (us1 us2 : List String) (u : String) (h : fetch u = none) :
    get_structured_page_snapshot fetch jp uj (us1 ++ u :: us2)
      = get_structured_page_snapshot fetch jp uj us1
        ++ emptySnapshot u :: get_structured_page_snapshot fetch jp uj us2 ∧
    (emptySnapshot u).links = [] ∧ (emptySnapshot u).url = u := by
  refine ⟨?_, rfl, rfl⟩
  unfold get_structured_page_snapshot
  rw [List.map_append, List.map_cons, snapshotFor_of_fail fetch jp uj u h]

/-- C3 amended-claim witness at a concrete run. -/
theorem fetch_failure_isolated_witness :
    get_structured_page_snapshot fetchNone jp0 uj0 ([] ++ "u" :: [])
      = get_structured_page_snapshot fetchNone jp0 uj0 []
        ++ emptySnapshot "u" :: get_structured_page_snapshot fetchNone jp0 uj0 [] ∧
    (emptySnapshot "u").links = [] ∧ (emptySnapshot "u").url = "u" :=
  fetch_failure_isolated fetchNone jp0 uj0 [] [] "u" rfl

/-- C4: the visible-text filter violates "no text fragment from the
style/script/head/meta subtrees appears in the visible text": on
`docHead` the `<title>` text `"Hello"` lies inside the `head` subtree,
yet `is_visible` keeps it (its DIRECT parent is `title`) and the joined
visible text is `"Hello World"`.  Moreover `is_visible` tests the
misspelled tag name `'meat'`: a fragment whose direct parent is `meta`
is kept, while one under a (non-standard) `meat` element is dropped. -/
theorem visible_text_includes_head_subtree :
    joinedVisibleText docHead = "Hello World" ∧
    fragsOfList "head" [Node.elem "title" [] [Node.text "Hello"]]
      = [⟨"Hello", "title", false⟩] ∧
    is_visible ⟨"Hello", "title", false⟩ = true ∧
    is_visible ⟨"x", "meta", false⟩ = true ∧
    is_visible ⟨"x", "meat", false⟩ = false := by
  refine ⟨by decide, by decide, by decide, by decide, by decide⟩

/-- C5: for every snapshot the scraper builds from a fetched document,
the main-text snippet equals the joined visible text unchanged when
that text is at most 1000 characters, and otherwise equals its first
1000 characters with `"..."` appended (hence exactly 1003 characters). -/
theorem snippet_truncation (jp : String → Option Json)
    (uj : String → String → String) (url : String) (doc : Node)
    (snap : PageSnapshot) (h : mkSnapshot jp uj url doc = some snap) :
    ((joinedVisibleText doc).length ≤ 1000 →
      snap.main_text_snippet = joinedVisibleText doc) ∧
    (1000 < (joinedVisibleText doc).length →
      snap.main_text_snippet = pyTake (joinedVisibleText doc) 1000 ++ "..." ∧
      snap.main_text_snippet.length = 1003) := by
  have hs := (mkSnapshot_fields jp uj url doc snap h).2.1
  constructor
  · intro hle
    rw [hs]; unfold snippetOf; rw [if_neg (by omega)]
  · intro hgt
    rw [hs]; unfold snippetOf; rw [if_pos hgt]
    refine ⟨rfl, ?_⟩
    have ht : (pyTake (joinedVisibleText doc) 1000).length = 1000 := by
      show ((joinedVisibleText doc).data.take 1000).length = 1000
      rw [List.length_take]
      have hl : (joinedVisibleText doc).length
          = (joinedVisibleText doc).data.length := rfl
      omega
    rw [String.length_append, ht]
    decide

/-- C5 witness: on `docPlain` the joined visible text is 5 characters
long and the snapshot's snippet equals it unchanged. -/
theorem snippet_truncation_witness :
    (joinedVisibleText docPlain).length ≤ 1000 ∧
    snapPlain.main_text_snippet = joinedVisibleText docPlain :=
  ⟨by decide,
   (snippet_truncation jp0 uj0 "u" docPlain snapPlain rfl).1 (by decide)⟩

theorem jsonToHeadings_round (hs : List (String × List String)) :
    jsonToHeadings (.obj (hs.map (fun p => (p.1, .arr (p.2.map .str)))))
      = some hs := by
  unfold jsonToHeadings
  refine optList_map_id _ _ ?_ hs
  intro p
  simp only
  rw [optList_map_id (fun s => Json.str s)
    (fun v => match v with | .str s => some s | _ => none)
    (fun a => rfl) p.2]
  rfl

theorem jsonToLinks_round (ls : List Link) :
    jsonToLinks (.arr (ls.map (fun l =>
      .obj [("text", .str l.text), ("href", .str l.href)]))) = some ls := by
  unfold jsonToLinks
  exact optList_map_id
    (fun l => Json.obj [("text", Json.str l.text), ("href", Json.str l.href)])
    (fun v => match v with
      | Json.obj [("text", .str t), ("href", .str h)] => some ⟨t, h⟩
      | _ => none)
    (fun l => rfl) ls

theorem snapshotOfDict_roundtrip (s : PageSnapshot) :
    snapshotOfDict (snapshotToDict s) = some s := by
  simp only [snapshotToDict, snapshotOfDict]
  rw [if_pos (by simp)]
  simp [jsonToHeadings_round, jsonToLinks_round]

/-- C6: exporting any sequence of `PageSnapshot` records to the JSON
snapshot format and importing the result back yields a sequence equal
field-for-field to the original. -/
theorem snapshots_json_roundtrip (snaps : List PageSnapshot) :
    load_snapshots_from_json (export_snapshots_to_json snaps) = some snaps := by
  unfold load_snapshots_from_json export_snapshots_to_json
  exact optList_map_id _ _ snapshotOfDict_roundtrip snaps

/-- C7 counterexample: the CSV writer hands the snippet field through
with only the 300-character slice — a snippet containing a comma and a
newline keeps them (CSV quoting, not replacement, deals with them),
refuting "every embedded newline and comma replaced by a single
space". -/
theorem csv_snippet_keeps_commas :
    (snapshotCsvFields snapComma).get? 2 = some "a,b\nc" ∧
    specCsvSnippetField "a,b\nc" = "a b c" ∧
    ("a,b\nc" : String) ≠ specCsvSnippetField "a,b\nc" ∧
    ("a,b\nc").data.any (fun c => c = ',' || c = '\n') = true := by
  refine ⟨by decide, by decide, by decide, by decide⟩

/-- C7 (amended): the CSV header row is exactly
`url,title,main_text_snippet,num_links,num_headings,num_json_ld`; each
record's snippet field is the snapshot's snippet truncated to 300
characters (commas and newlines kept, handled by CSV quoting), and the
three count fields are the sizes of the snapshot's links, headings
(summed over h1..h6) and JSON-LD fields. -/
theorem csv_export_shape (snaps : List PageSnapshot) (snap : PageSnapshot) :
    csvLine csvFieldnames
      = "url,title,main_text_snippet,num_links,num_headings,num_json_ld\r\n" ∧
    export_snapshots_to_csv snaps
      = csvLine csvFieldnames
        ++ String.join (snaps.map (fun s => csvLine (snapshotCsvFields s))) ∧
    (snapshotCsvFields snap).get? 2 = some (pyTake snap.main_text_snippet 300) ∧
    (pyTake snap.main_text_snippet 300).length ≤ 300 ∧
    (snapshotCsvFields snap).get? 3 = some (toString snap.links.length) ∧
    (snapshotCsvFields snap).get? 4
      = some (toString (snap.headings.map (fun p => p.2.length)).sum) ∧
    (snapshotCsvFields snap).get? 5 = some (toString snap.json_ld.length) := by
  refine ⟨by decide, rfl, rfl, ?_, rfl, rfl, rfl⟩
  show ((snap.main_text_snippet.data.take 300)).length ≤ 300
  rw [List.length_take]
  omega

/-- C8 counterexample: `raise_for_status` raises only for 4xx/5xx, so a
link answered with the non-2xx status `304` is NOT dropped — the file
is written and its path returned — refuting "a link whose download
returns a non-2xx status ... is dropped". -/
theorem non2xx_not_dropped :
    (download_files urlparseModel dl304 "out" ["http://h/a.pdf"]).1
      = ["out/h/pdf/a.pdf"] ∧
    raisesForStatus 304 = false ∧
    ¬ (200 ≤ 304 ∧ 304 < 300) := by
  refine ⟨by decide, by decide, by omega⟩

/-- C8 (amended): per-link download failures are isolated for EVERY
candidate list and both failure kinds — a link whose GET raises (a
transport failure, `dl l = none`) or whose response status is 4xx/5xx
(for which `raise_for_status` raises) contributes no downloaded-file
entry, and the remaining links of the list are processed exactly as
they would be without it. -/
theorem download_failure_isolated (parse : String → String × String)
    (dl : String → Option DResp) (out : String) (ls1 ls2 : List String)
    (l : String)
    (hfail : dl l = none ∨
      ∃ r, dl l = some r ∧ raisesForStatus r.status = true) :
    (download_files parse dl out (ls1 ++ l :: ls2)).1
      = (download_files parse dl out ls1).1
        ++ (download_files parse dl out ls2).1 := by
  rw [download_files_fst, download_files_fst, download_files_fst,
      List.filterMap_append, List.filterMap_cons,
      downloadOne_of_fail parse dl out l hfail]

/-- C8 amended-claim witness: three concrete `.pdf` links where the
second GET answers 404 — the failing link is dropped, its neighbours
are processed as if it were absent, and exactly the save paths of
links 1 and 3 are returned. -/
theorem download_failure_isolated_witness :
    (download_files urlparseModel dl404b "out"
      (["http://h/a.pdf"] ++ "http://h/b.pdf" :: ["http://h/c.pdf"])).1
      = (download_files urlparseModel dl404b "out" ["http://h/a.pdf"]).1
        ++ (download_files urlparseModel dl404b "out" ["http://h/c.pdf"]).1 ∧
    (download_files urlparseModel dl404b "out"
      ["http://h/a.pdf", "http://h/b.pdf", "http://h/c.pdf"]).1
      = ["out/h/pdf/a.pdf", "out/h/pdf/c.pdf"] :=
  ⟨download_failure_isolated urlparseModel dl404b "out"
    ["http://h/a.pdf"] ["http://h/c.pdf"] "http://h/b.pdf"
    (Or.inr ⟨⟨404, "gone"⟩, by decide, by decide⟩),
   by decide⟩

/-- C9 counterexample: the filter compares the whole lower-cased URL
against the suffix taken verbatim, not the URL path case-insensitively:
a link whose PATH ends with `.PDF` case-insensitively is excluded (the
suffix is never lower-cased), and a link whose path ends with `.pdf`
but which carries a query string is excluded as well. -/
theorem filter_links_ignores_path_and_case :
    specFileTypeMatch (fun l => (urlparseModel l).2) [".PDF"]
      "http://x/a.PDF" = true ∧
    filter_links_by_file_type [".PDF"] ["http://x/a.PDF"] = [] ∧
    specFileTypeMatch (fun l => (urlparseModel l).2) [".pdf"]
      "http://x/a.pdf?v=1" = true ∧
    filter_links_by_file_type [".pdf"] ["http://x/a.pdf?v=1"] = [] := by
  refine ⟨by decide, by decide, by decide, by decide⟩

/-- C9 (amended): the file-matching links are exactly the sublist of
the input links whose ENTIRE lower-cased URL ends with one of the
configured suffixes taken verbatim; every other link is excluded. -/
theorem filter_links_membership (fts links : List String) :
    (filter_links_by_file_type fts links).Sublist links ∧
    ∀ l, l ∈ filter_links_by_file_type fts links
      ↔ l ∈ links ∧ fts.any (fun ex => pyEndsWith (pyLower l) ex) = true := by
  refine ⟨List.filter_sublist _, fun l => ?_⟩
  simp [filter_links_by_file_type, List.mem_filter]

/-- C2 counterexample: one pass of `download_files_by_type` over the
single URL `http://h/a.pdf`, whose page links to itself, issues TWO
GETs for that URL — one to extract links, one to download the matched
file — refuting "the same URL is never re-fetched to compute a second
derived output in the same pass". -/
theorem double_fetch_in_one_pass :
    (download_files_by_type fetchSelf dl200 uj0 urlparseModel "downloads"
      ["http://h/a.pdf"] [".pdf"]).2
      = ["http://h/a.pdf", "http://h/a.pdf"] ∧
    ((download_files_by_type fetchSelf dl200 uj0 urlparseModel "downloads"
      ["http://h/a.pdf"] [".pdf"]).2).count "http://h/a.pdf" = 2 := by
  refine ⟨by decide, by decide⟩

/-- C2 (amended): within one call, each operation fetches each of its
input URLs exactly once (`fetch_links_from_url`'s transport log is
exactly its URL list), but fetched documents are not shared across
derived outputs: `download_files_by_type`'s combined log is the page
fetches followed by one GET per filtered link with a non-empty
basename, so a URL appearing both as page and as matched file link is
fetched twice in one pass. -/
theorem per_call_fetch_log (fetch : String → Option Node)
    (uj : String → String → String) (parse : String → String × String)
    (dl : String → Option DResp) (out : String)
    (urls fts : List String) :
    (fetch_links_from_url fetch uj urls).2 = urls ∧
    (download_files_by_type fetch dl uj parse out urls fts).2
      = urls ++ (filter_links_by_file_type fts
          (fetch_links_from_url fetch uj urls).1).filter
            (fun l => !(basenameOf (parse l).2 = "")) := by
  have h1 : (fetch_links_from_url fetch uj urls).2 = urls := by
    unfold fetch_links_from_url
    simpa using fetchLinks_foldl_snd fetch uj urls ([], [])
  refine ⟨h1, ?_⟩
  show (fetch_links_from_url fetch uj urls).2
      ++ (download_files parse dl out (filter_links_by_file_type fts
            (fetch_links_from_url fetch uj urls).1)).2 = _
  rw [h1]
  unfold download_files
  rw [download_foldl_snd]
  simp

end Scraper
